import Mathlib

/-!
Verification development for `keepachangelog/_changelog.py`.

The module parses a "Keep a Changelog" style markdown document into a nested
dictionary (`to_dict`, `to_raw_dict`) and promotes an Unreleased section into a
dated release by rewriting the raw document text (`release_version`).

The markdown block/inline parser (mistletoe) is an external collaborator: we
embed its observable interface, namely block tokens (headings with a level and
inline children, lists with items, anything else) and span tokens (`RawText`
with a `content` attribute, `Link` with label children).  List items carry the
string produced for them by mistletoe's `BaseRenderer`, which is likewise
external.  File access is stripped: the parsing functions take the parsed block
sequence (resp. the list of raw lines) and the promoter takes the list of lines
and returns the rewritten lines.  Python exceptions (`IndexError`,
`AttributeError`, `NameError`, `UnboundLocalError`, `TypeError`) are modelled by
`Except String`.  Python dictionaries preserve insertion order, so they are
modelled as association lists; `dict.setdefault` appends a fresh key at the end
and returns the already-present value otherwise.  Today's date, an environmental
input, is injected as an argument `today`.
-/

/-- Python `str.lstrip(chars)`: drop every leading character from `chars`. -/
def pyLstrip (s chars : String) : String :=
  String.mk (s.data.dropWhile (fun c => chars.data.contains c))

/-- Python `str.rstrip(chars)`: drop every trailing character from `chars`. -/
def pyRstrip (s chars : String) : String :=
  String.mk ((s.data.reverse.dropWhile (fun c => chars.data.contains c)).reverse)

/-- Python `str.strip(chars)`: both-ends strip. -/
def pyStrip (s chars : String) : String :=
  pyRstrip (pyLstrip s chars) chars

/-- Replacement scan for a non-empty pattern: while `skip` is positive the
character belongs to an already-matched occurrence and is consumed; at `skip`
zero, a pattern occurrence emits `repl` and schedules the remaining
`pat.length - 1` matched characters to be consumed, otherwise the character is
kept.  This is Python's left-to-right non-overlapping replacement. -/
def replaceGo (pat repl : List Char) (skip : Nat) : List Char → List Char
  | [] => []
  | c :: rest =>
    match skip with
    | n + 1 => replaceGo pat repl n rest
    | 0 =>
      if pat.isPrefixOf (c :: rest) then
        repl ++ replaceGo pat repl (pat.length - 1) rest
      else
        c :: replaceGo pat repl 0 rest

/-- Replacement for the empty pattern: Python inserts `repl` before every
character and once more at the end. -/
def replaceEmptyPat (repl : List Char) : List Char → List Char
  | [] => repl
  | c :: rest => repl ++ c :: replaceEmptyPat repl rest

/-- Python `str.replace` on character lists: replace every non-overlapping
occurrence of `pat`, scanning left to right. -/
def listReplace (pat repl : List Char) (s : List Char) : List Char :=
  if pat.isEmpty then replaceEmptyPat repl s else replaceGo pat repl 0 s

/-- Python `s.replace(pat, repl)`. -/
def pyReplace (s pat repl : String) : String :=
  String.mk (listReplace pat.data repl.data s.data)

/-- Mistletoe span tokens as used by `_changelog.py`: `RawText` has a `content`
attribute, `Link` has `children` (its label tokens); any other span token has
neither. -/
inductive SpanToken where
  | rawText (content : String)
  | link (children : List SpanToken)
  | otherSpan

/-- Attribute access `.content`: only `RawText` has it; `none` models the
`AttributeError` raised on any other span token. -/
def spanContent : SpanToken → Option String
  | SpanToken.rawText c => some c
  | _ => none

/-- Rendered text of one list item: mistletoe's `BaseRenderer` output for the
item, produced by the external library, carried as a plain string. -/
abbrev ListItem := String

/-- Mistletoe block tokens as used by `_changelog.py`: headings with a level
and inline children, lists with their items, and anything else. -/
inductive Block where
  | heading (level : Nat) (children : List SpanToken)
  | list (children : List ListItem)
  | otherBlock

/-- A Python value reaching the classifiers: `to_dict` passes parsed block
tokens, `to_raw_dict` passes raw lines (strings).  `isinstance` checks
distinguish them dynamically. -/
inductive PyVal where
  | block (b : Block)
  | str (s : String)

/-- `is_release`: `isinstance(section, bt.Heading) and section.level == 2`. -/
def is_release : PyVal → Bool
  | PyVal.block (Block.heading 2 _) => true
  | _ => false

/-- `is_category`: `isinstance(section, bt.Heading) and section.level == 3`. -/
def is_category : PyVal → Bool
  | PyVal.block (Block.heading 3 _) => true
  | _ => false

/-- `is_list`: `isinstance(section, bt.List)`. -/
def is_list : PyVal → Bool
  | PyVal.block (Block.list _) => true
  | _ => false

/-- A value stored under a key of a release dictionary: `"version"` and
`"release_date"` hold strings, category keys hold lists of change entries. -/
inductive RVal where
  | s (v : String)
  | l (v : List String)
  deriving DecidableEq

/-- A release dictionary: insertion-ordered association list. -/
abbrev PyRelease := List (String × RVal)

/-- The changelog dictionary: version identifier to release dictionary. -/
abbrev Changes := List (String × PyRelease)

/-- First-match lookup in an insertion-ordered dictionary. -/
def lookupA {α : Type} : List (String × α) → String → Option α
  | [], _ => none
  | (k, v) :: rest, key => if k = key then some v else lookupA rest key

/-- Dictionary assignment `d[key] = v`: replace the value at an existing key in
place, or append a new key at the end. -/
def updateA {α : Type} : List (String × α) → String → α → List (String × α)
  | [], key, v => [(key, v)]
  | (k, w) :: rest, key, v =>
    if k = key then (k, v) :: rest else (k, w) :: updateA rest key v

/-- `unlink`: `value.lstrip("[").rstrip("]")`. -/
def unlink (value : String) : String :=
  pyRstrip (pyLstrip value "[") "]"

/-- `extract_date`: identity on the empty (falsy) string, otherwise
`date.lstrip(" -(").rstrip(" )")`. -/
def extract_date (date : String) : String :=
  if date = "" then date else pyRstrip (pyLstrip date " -(") " )"

/-- Modelled from the spec for comparison with `unlink` (claim C8): strip
exactly one leading `[` character and exactly one trailing `]` character. -/
def unlink_spec (value : String) : String :=
  let afterHead := if value.data.head? = some '[' then value.data.drop 1 else value.data
  let afterLast :=
    if afterHead.getLast? = some ']' then afterHead.dropLast else afterHead
  String.mk afterLast

/-- The aliased object held by the Python local `current_release`: either a
dictionary detached from `changes` (the initial `{}` placeholder or the fresh
`{}` returned on a suppressed Unreleased heading) or an alias of the entry of
`changes` stored under the given key. -/
inductive CurRel where
  | detached (r : PyRelease)
  | stored (k : String)
  deriving DecidableEq

/-- Where the object held by the Python local `category` lives: unreachable
from `changes` and `current_release`, inside the detached `current_release`
dictionary under the given category name, or inside `changes` under the given
release key and category name. -/
inductive CatPath where
  | free
  | inCur (name : String)
  | inChanges (k name : String)
  deriving DecidableEq

/-- The Python local `category`: its current value together with the location
of the aliased object, so that in-place mutation can be written through. -/
structure CurCat where
  value : RVal
  path : CatPath
  deriving DecidableEq

/-- Lines 22-26 of the source for one version token: a `RawText` yields its
bracket-stripped content; a `Link` yields its first label token's `content`,
raising `IndexError` on a labelless link and `AttributeError` when the label
token has no `content`; any other token leaves the local `version` unassigned
(`none`), deferring Python's `UnboundLocalError` to the later use. -/
def versionOfToken : SpanToken → Except String (Option String)
  | SpanToken.rawText c => Except.ok (some (unlink c))
  | SpanToken.link ch =>
    match ch[0]? with
    | none => Except.error "IndexError"
    | some sp =>
      match spanContent sp with
      | none => Except.error "AttributeError"
      | some c => Except.ok (some c)
  | SpanToken.otherSpan => Except.ok none

/-- `add_release(changes, section, show_unreleased)` over the heading's inline
children.  Returns the updated `changes` and what `current_release` becomes.
Mirrors the source line by line: the early `return {}` on a dateless heading
with `show_unreleased` false; the version extraction from `children[0]`; the
unconditional read of `section.children[1].content`; and the final
`changes.setdefault`. -/
def add_release (changes : Changes) (children : List SpanToken) (show_unreleased : Bool) :
    Except String (Changes × CurRel) :=
  if children.length = 1 ∧ ¬show_unreleased then
    Except.ok (changes, CurRel.detached [])
  else
    match children[0]? with
    | none => Except.error "IndexError"
    | some version_token =>
      match versionOfToken version_token with
      | Except.error e => Except.error e
      | Except.ok versionOpt =>
        match children[1]? with
        | none => Except.error "IndexError"
        | some second =>
          match spanContent second with
          | none => Except.error "AttributeError"
          | some release_date =>
            match versionOpt with
            | none => Except.error "UnboundLocalError"
            | some version =>
              match lookupA changes version with
              | some _ => Except.ok (changes, CurRel.stored version)
              | none =>
                Except.ok
                  (changes ++
                    [(version,
                      [("version", RVal.s version),
                       ("release_date", RVal.s (extract_date release_date))])],
                   CurRel.stored version)

/-- `add_category(release, section)` at the dictionary level:
`release.setdefault(category, [])`.  Returns the updated release dictionary
and the value the Python call returns. -/
def add_category (release : PyRelease) (name : String) : PyRelease × RVal :=
  match lookupA release name with
  | some v => (release, v)
  | none => (release ++ [(name, RVal.l [])], RVal.l [])

/-- `extract_change_entry`: renders one list item via mistletoe's
`BaseRenderer`; the rendering itself is external, items carry their rendered
text. -/
def extract_change_entry (list_entry : ListItem) : String :=
  list_entry

/-- `add_change_list(category, section)`: append the rendered text of every
list item to the aliased category value; appending to a string raises
`AttributeError` as `str` has no `append`. -/
def add_change_list (category : RVal) : List ListItem → Except String RVal
  | [] => Except.ok category
  | list_entry :: rest =>
    match category with
    | RVal.s _ => Except.error "AttributeError"
    | RVal.l xs => add_change_list (RVal.l (xs ++ [extract_change_entry list_entry])) rest

/-- The mutable state of the `to_dict` loop: the `changes` dictionary and the
two cursor locals. -/
structure ToDictState where
  changes : Changes
  cur : CurRel
  cat : CurCat
  deriving DecidableEq

/-- Initial state of `to_dict`: `changes = {}`, `current_release = {}`,
`category = []`. -/
def to_dict_init : ToDictState :=
  ⟨[], CurRel.detached [], ⟨RVal.l [], CatPath.free⟩⟩

/-- Truthiness of the `current_release` dictionary: non-empty. -/
def relTruthy (changes : Changes) : CurRel → Bool
  | CurRel.detached r => ¬r.isEmpty
  | CurRel.stored k => ¬((lookupA changes k).getD []).isEmpty

/-- Truthiness of the `category` value: non-empty string or non-empty list. -/
def rvalTruthy : RVal → Bool
  | RVal.s v => v ≠ ""
  | RVal.l xs => ¬xs.isEmpty

/-- Rebinding `current_release` abandons the previously detached dictionary:
an alias of one of its entries becomes unreachable from the state. -/
def snapCat (cat : CurCat) : CurCat :=
  match cat.path with
  | CatPath.inCur _ => ⟨cat.value, CatPath.free⟩
  | _ => cat

/-- The `is_release` branch of the `to_dict` loop:
`current_release = add_release(changes, section, show_unreleased)`. -/
def stepRelease (show_unreleased : Bool) (st : ToDictState) (children : List SpanToken) :
    Except String ToDictState :=
  match add_release st.changes children show_unreleased with
  | Except.error e => Except.error e
  | Except.ok (changes', cur') => Except.ok ⟨changes', cur', snapCat st.cat⟩

/-- The `is_category` branch of the `to_dict` loop:
`category = add_category(current_release, section)`, with the category name
read from `section.children[0].content`; the `setdefault` mutation is written
through to wherever the `current_release` dictionary lives. -/
def stepCategory (st : ToDictState) (children : List SpanToken) :
    Except String ToDictState :=
  match children[0]? with
  | none => Except.error "IndexError"
  | some first =>
    match spanContent first with
    | none => Except.error "AttributeError"
    | some name =>
      match st.cur with
      | CurRel.detached r =>
        Except.ok ⟨st.changes, CurRel.detached (add_category r name).fst,
          ⟨(add_category r name).snd, CatPath.inCur name⟩⟩
      | CurRel.stored k =>
        Except.ok ⟨updateA st.changes k (add_category ((lookupA st.changes k).getD []) name).fst,
          CurRel.stored k,
          ⟨(add_category ((lookupA st.changes k).getD []) name).snd, CatPath.inChanges k name⟩⟩

/-- The guarded `is_list` branch of the `to_dict` loop:
`add_change_list(category, section)`, with the in-place appends written
through to wherever the `category` list lives. -/
def stepList (st : ToDictState) (items : List ListItem) : Except String ToDictState :=
  match add_change_list st.cat.value items with
  | Except.error e => Except.error e
  | Except.ok v' =>
    match st.cat.path with
    | CatPath.free => Except.ok ⟨st.changes, st.cur, ⟨v', CatPath.free⟩⟩
    | CatPath.inCur name =>
      match st.cur with
      | CurRel.detached r =>
        Except.ok ⟨st.changes, CurRel.detached (updateA r name v'), ⟨v', CatPath.inCur name⟩⟩
      | CurRel.stored _ => Except.ok ⟨st.changes, st.cur, ⟨v', CatPath.inCur name⟩⟩
    | CatPath.inChanges k name =>
      Except.ok ⟨updateA st.changes k (updateA ((lookupA st.changes k).getD []) name v'),
        st.cur, ⟨v', CatPath.inChanges k name⟩⟩

/-- One iteration of the `to_dict` loop over one parsed block, dispatching on
the classifiers exactly as lines 86-91 of the source do. -/
def to_dict_step (show_unreleased : Bool) (st : ToDictState) (section' : Block) :
    Except String ToDictState :=
  if is_release (PyVal.block section') then
    match section' with
    | Block.heading _ children => stepRelease show_unreleased st children
    | _ => Except.error "unreachable"
  else if is_category (PyVal.block section') then
    match section' with
    | Block.heading _ children => stepCategory st children
    | _ => Except.error "unreachable"
  else if is_list (PyVal.block section') ∧ relTruthy st.changes st.cur
      ∧ rvalTruthy st.cat.value then
    match section' with
    | Block.list items => stepList st items
    | _ => Except.error "unreachable"
  else
    Except.ok st

/-- The `to_dict` loop over the block sequence. -/
def runBlocks (show_unreleased : Bool) : ToDictState → List Block → Except String ToDictState
  | st, [] => Except.ok st
  | st, b :: rest =>
    match to_dict_step show_unreleased st b with
    | Except.error e => Except.error e
    | Except.ok st' => runBlocks show_unreleased st' rest

/-- `to_dict(changelog_path, show_unreleased=...)` over the parsed block
sequence of the document: returns the accumulated `changes` dictionary. -/
def to_dict (blocks : List Block) (show_unreleased : Bool) : Except String Changes :=
  match runBlocks show_unreleased to_dict_init blocks with
  | Except.error e => Except.error e
  | Except.ok st => Except.ok st.changes

/-- The state of the `to_raw_dict` loop: `changes` and `current_release`. -/
structure RawState where
  changes : Changes
  cur : CurRel

/-- One iteration of the `to_raw_dict` loop over one raw line.  The source
passes the stripped line (a `str`) to `is_release` and `is_category`, which
test `isinstance(section, bt.Heading)`, so both tests are `False` for every
line; the remaining disjunct then evaluates `is_information(clean_line)`, a
name the module never defines nor imports, raising `NameError`.  The two
heading branches are kept for structure: the first would call `add_release`
on a `str`, whose `section.children` access would raise `AttributeError`; the
second concatenates the raw line onto `current_release["raw"]`. -/
def to_raw_dict_step (st : RawState) (line : String) : Except String RawState :=
  let clean_line := pyStrip line " \n"
  if is_release (PyVal.str clean_line) then
    Except.error "AttributeError"
  else if is_category (PyVal.str clean_line) then
    match st.cur with
    | CurRel.detached r =>
      let old := match lookupA r "raw" with
        | some (RVal.s v) => v
        | _ => ""
      Except.ok ⟨st.changes, CurRel.detached (updateA r "raw" (RVal.s (old ++ line)))⟩
    | CurRel.stored k =>
      let r := (lookupA st.changes k).getD []
      let old := match lookupA r "raw" with
        | some (RVal.s v) => v
        | _ => ""
      Except.ok ⟨updateA st.changes k (updateA r "raw" (RVal.s (old ++ line))), st.cur⟩
  else
    Except.error "NameError: name is_information is not defined"

/-- The `to_raw_dict` loop over the raw lines. -/
def runRawLines : RawState → List String → Except String RawState
  | st, [] => Except.ok st
  | st, line :: rest =>
    match to_raw_dict_step st line with
    | Except.error e => Except.error e
    | Except.ok st' => runRawLines st' rest

/-- `to_raw_dict(changelog_path)` over the raw lines of the document. -/
def to_raw_dict (lines : List String) : Except String Changes :=
  match runRawLines ⟨[], CurRel.detached []⟩ lines with
  | Except.error e => Except.error e
  | Except.ok st => Except.ok st.changes

/-- The line contains `...` (three consecutive dots) somewhere. -/
def hasDots : List Char → Bool
  | '.' :: '.' :: '.' :: _ => true
  | _ :: rest => hasDots rest
  | [] => false

/-- The suffix after the last `/` that is still followed by `...` somewhere:
the text matched against `(.*)\.\.\.(\w*).*` after the greedy `^.*/` of the
compare pattern `^.*/(.*)\.\.\.(\w*).*$` committed to the last viable slash. -/
def lastSlashSuffix : List Char → Option (List Char)
  | [] => none
  | c :: rest =>
    match lastSlashSuffix rest with
    | some r => some r
    | none => if c == '/' && hasDots rest then some rest else none

/-- Split at the last occurrence of `...`: greedy `(.*)\.\.\.` takes group 1 up
to the last three consecutive dots and returns the remainder after them. -/
def splitLastDots : List Char → Option (List Char × List Char)
  | [] => none
  | c :: rest =>
    match splitLastDots rest with
    | some (before, after) => some (c :: before, after)
    | none =>
      if c == '.' then
        match rest with
        | '.' :: '.' :: after => some ([], after)
        | _ => none
      else none

/-- Python regex `\w` on the ASCII inputs in scope: alphanumeric or `_`. -/
def isWordChar (c : Char) : Bool :=
  c.isAlphanum || c == '_'

/-- `re.fullmatch(r"^.*/(.*)\.\.\.(\w*).*$", line, re.DOTALL)`: with `DOTALL`
every dot also matches newlines, so the match succeeds exactly when some `/`
is followed later by `...`; backtracking commits the leading greedy `.*` to
the last such `/`, group 1 to everything up to the last `...` after it, and
group 2 to the maximal `\w` run after those dots. -/
def unreleased_compare_match (line : String) : Option (String × String) :=
  match lastSlashSuffix line.data with
  | none => none
  | some suffix =>
    match splitLastDots suffix with
    | none => none
    | some (before, after) =>
      some (String.mk before, String.mk (after.takeWhile isWordChar))

/-- The body of the `release_version` loop for one input line, producing the
output lines appended for it.  `re.fullmatch(r"^## \[Unreleased\].*$", line,
re.DOTALL)` holds exactly when the line starts with `## [Unreleased]`, and
`re.fullmatch(r"^\[Unreleased\]: (.*)$", line, re.DOTALL)` exactly when it
starts with `[Unreleased]: `.  In the compare branch every use of
`current_version` raises `TypeError` when it is `None` (`str.replace` rejects
a `None` argument); the first use happens before any line is emitted. -/
def process_line (current_version : Option String) (new_version today line : String) :
    Except String (List String) :=
  if "## [Unreleased]".data.isPrefixOf line.data then
    Except.ok [line, "\n", "## [" ++ new_version ++ "] - " ++ today ++ "\n"]
  else if "[Unreleased]: ".data.isPrefixOf line.data then
    match unreleased_compare_match line with
    | some (current_tag, unreleased_tag) =>
      match current_version with
      | none => Except.error "TypeError"
      | some cv =>
        let new_unreleased_link := pyReplace line cv new_version
        let new_tag := pyReplace current_tag cv new_version
        Except.ok
          [new_unreleased_link,
           pyReplace (pyReplace (pyReplace line new_version cv) unreleased_tag new_tag)
             "Unreleased" new_version]
    | none => Except.ok [line, pyReplace line "Unreleased" new_version]
  else
    Except.ok [line]

/-- `release_version(changelog_path, current_version, new_version)` over the
lines of the document, with today's date injected: the concatenation of the
output lines produced for each input line in order. -/
def release_version (current_version : Option String) (new_version today : String) :
    List String → Except String (List String)
  | [] => Except.ok []
  | line :: rest =>
    match process_line current_version new_version today line with
    | Except.error e => Except.error e
    | Except.ok out =>
      match release_version current_version new_version today rest with
      | Except.error e => Except.error e
      | Except.ok outs => Except.ok (out ++ outs)


/-! Helper lemmas about the dictionary model. -/

theorem lookupA_eq_none {α : Type} {l : List (String × α)} {k : String}
    (h : lookupA l k = none) : k ∉ l.map Prod.fst := by
  induction l with
  | nil => simp
  | cons p rest ih =>
    obtain ⟨k', w⟩ := p
    by_cases hk : k' = k
    · simp [lookupA, hk] at h
    · simp only [lookupA, hk, if_false] at h
      simp [Ne.symm hk, ih h]

theorem keys_updateA {α : Type} (l : List (String × α)) (k : String) (v : α) :
    (updateA l k v).map Prod.fst =
      if k ∈ l.map Prod.fst then l.map Prod.fst else l.map Prod.fst ++ [k] := by
  induction l with
  | nil => simp [updateA]
  | cons p rest ih =>
    obtain ⟨k', w⟩ := p
    by_cases hk : k' = k
    · subst hk
      simp [updateA]
    · simp only [updateA, hk, if_false, List.map_cons, ih]
      by_cases hmem : k ∈ rest.map Prod.fst
      · simp [hmem, Ne.symm hk]
      · simp [hmem, Ne.symm hk]

theorem prefix_keys_updateA {α : Type} (l : List (String × α)) (k : String) (v : α) :
    l.map Prod.fst <+: (updateA l k v).map Prod.fst := by
  rw [keys_updateA]
  split
  · exact List.prefix_rfl
  · exact List.prefix_append _ _

theorem nodup_keys_updateA {α : Type} {l : List (String × α)} (k : String) (v : α)
    (h : (l.map Prod.fst).Nodup) : ((updateA l k v).map Prod.fst).Nodup := by
  rw [keys_updateA]
  split
  · exact h
  · next hk => simp [List.nodup_append, h, hk]

/-- Effect of `add_release` on `changes`: unchanged, or a fresh version key
appended at the end. -/
theorem add_release_changes {ch : Changes} {children : List SpanToken} {su : Bool}
    {ch' : Changes} {cur : CurRel}
    (h : add_release ch children su = Except.ok (ch', cur)) :
    ch' = ch ∨
      ∃ v r, lookupA ch v = none ∧ cur = CurRel.stored v ∧ ch' = ch ++ [(v, r)] := by
  unfold add_release at h
  split at h
  · cases h
    left
    rfl
  · split at h
    · simp at h
    · split at h
      · simp at h
      · split at h
        · simp at h
        · split at h
          · simp at h
          · split at h
            · simp at h
            · split at h
              · cases h
                left
                rfl
              · cases h
                right
                exact ⟨_, _, by assumption, rfl, rfl⟩

/-- Key effect of the release branch: the key sequence of `changes` is
preserved or extended by one fresh key at the end, and key uniqueness is
preserved. -/
theorem stepRelease_keys {su : Bool} {st : ToDictState} {children : List SpanToken}
    {st' : ToDictState} (h : stepRelease su st children = Except.ok st') :
    (st.changes.map Prod.fst <+: st'.changes.map Prod.fst)
    ∧ ((st.changes.map Prod.fst).Nodup → (st'.changes.map Prod.fst).Nodup) := by
  unfold stepRelease at h
  split at h
  · exact Except.noConfusion h
  · next changes' cur' heq =>
    cases h
    rcases add_release_changes heq with h1 | ⟨v, r, hnone, hcur, happ⟩
    · rw [h1]
      exact ⟨List.prefix_rfl, id⟩
    · rw [happ]
      constructor
      · simp
      · intro hn
        have hv := lookupA_eq_none hnone
        simp [List.nodup_append, hn, hv]

/-- Key effect of the category branch on `changes`. -/
theorem stepCategory_keys {st : ToDictState} {children : List SpanToken}
    {st' : ToDictState} (h : stepCategory st children = Except.ok st') :
    (st.changes.map Prod.fst <+: st'.changes.map Prod.fst)
    ∧ ((st.changes.map Prod.fst).Nodup → (st'.changes.map Prod.fst).Nodup) := by
  unfold stepCategory at h
  split at h
  · exact Except.noConfusion h
  · split at h
    · exact Except.noConfusion h
    · split at h
      · cases h
        exact ⟨List.prefix_rfl, id⟩
      · cases h
        exact ⟨prefix_keys_updateA _ _ _, nodup_keys_updateA _ _⟩

/-- Key effect of the list branch on `changes`. -/
theorem stepList_keys {st : ToDictState} {items : List ListItem}
    {st' : ToDictState} (h : stepList st items = Except.ok st') :
    (st.changes.map Prod.fst <+: st'.changes.map Prod.fst)
    ∧ ((st.changes.map Prod.fst).Nodup → (st'.changes.map Prod.fst).Nodup) := by
  unfold stepList at h
  split at h
  · exact Except.noConfusion h
  · split at h
    · cases h
      exact ⟨List.prefix_rfl, id⟩
    · split at h
      · cases h
        exact ⟨List.prefix_rfl, id⟩
      · cases h
        exact ⟨List.prefix_rfl, id⟩
    · cases h
      exact ⟨prefix_keys_updateA _ _ _, nodup_keys_updateA _ _⟩

/-- Key effect of one `to_dict` iteration on `changes`. -/
theorem to_dict_step_keys {su : Bool} {st : ToDictState} {b : Block}
    {st' : ToDictState} (h : to_dict_step su st b = Except.ok st') :
    (st.changes.map Prod.fst <+: st'.changes.map Prod.fst)
    ∧ ((st.changes.map Prod.fst).Nodup → (st'.changes.map Prod.fst).Nodup) := by
  unfold to_dict_step at h
  split at h
  · split at h
    · exact stepRelease_keys h
    · exact Except.noConfusion h
  · split at h
    · split at h
      · exact stepCategory_keys h
      · exact Except.noConfusion h
    · split at h
      · split at h
        · exact stepList_keys h
        · exact Except.noConfusion h
      · cases h
        exact ⟨List.prefix_rfl, id⟩

/-- Key effect of a whole `to_dict` run on `changes`: existing keys stay, in
order, and new keys are only appended; uniqueness is preserved. -/
theorem runBlocks_keys {su : Bool} {blocks : List Block} {st st' : ToDictState}
    (h : runBlocks su st blocks = Except.ok st') :
    (st.changes.map Prod.fst <+: st'.changes.map Prod.fst)
    ∧ ((st.changes.map Prod.fst).Nodup → (st'.changes.map Prod.fst).Nodup) := by
  induction blocks generalizing st with
  | nil =>
    unfold runBlocks at h
    cases h
    exact ⟨List.prefix_rfl, id⟩
  | cons b rest ih =>
    unfold runBlocks at h
    split at h
    · exact Except.noConfusion h
    · next st1 heq =>
      obtain ⟨h1, h2⟩ := to_dict_step_keys heq
      obtain ⟨h3, h4⟩ := ih h
      exact ⟨h1.trans h3, fun hn => h4 (h2 hn)⟩

/-! Claim theorems. -/

/-- Claim C1 (code bug): for a document with a registered release heading
followed by a category heading and a list block, `to_dict` is claimed to
append each list item's rendered text to the category's sequence.  The code
instead leaves the category empty: the guard `current_release and category`
is false because the freshly created category list `[]` is falsy in Python,
so `add_change_list` is never invoked and the list block is dropped. -/
theorem kc_c1_entries_never_appended :
    to_dict
      [Block.heading 2 [SpanToken.rawText "[1.0.0]", SpanToken.rawText " - 2020-12-31"],
       Block.heading 3 [SpanToken.rawText "Added"],
       Block.list ["first change", "second change"]] false
      = Except.ok
          [("1.0.0",
            [("version", RVal.s "1.0.0"), ("release_date", RVal.s "2020-12-31"),
             ("Added", RVal.l [])])] := rfl

/-- Claim C2 (code bug): for a document whose dateless `## [Unreleased]`
heading has exactly one inline child, `to_dict` with `show_unreleased = false`
omits that release (first conjunct, as claimed), but with
`show_unreleased = true` the code raises `IndexError` on the unconditional
read of `section.children[1]` instead of including the release with an empty
`release_date` (second conjunct). -/
theorem kc_c2_dateless_unreleased :
    to_dict
      [Block.heading 2 [SpanToken.rawText "[Unreleased]"],
       Block.heading 2 [SpanToken.rawText "[1.0.0]", SpanToken.rawText " - 2020-12-31"]] false
      = Except.ok
          [("1.0.0", [("version", RVal.s "1.0.0"), ("release_date", RVal.s "2020-12-31")])]
    ∧ to_dict
      [Block.heading 2 [SpanToken.rawText "[Unreleased]"],
       Block.heading 2 [SpanToken.rawText "[1.0.0]", SpanToken.rawText " - 2020-12-31"]] true
      = Except.error "IndexError" :=
  ⟨rfl, rfl⟩

/-- Claim C3 (code bug): `to_raw_dict` is claimed to return a mapping of
releases to raw text blobs, but it raises `NameError` on the very first line
of every document: the isinstance-based classifiers `is_release` and
`is_category` are always `False` on a `str`, and the remaining disjunct
evaluates `is_information`, a name the module never defines nor imports. -/
theorem kc_c3_to_raw_dict_name_error (line : String) (rest : List String) :
    to_raw_dict (line :: rest)
      = Except.error "NameError: name is_information is not defined" := rfl

/-- Claim C4: promoting `1.0.0` to `1.1.0` on a document with an Unreleased
heading and a compare-shaped Unreleased link inserts the new dated heading
after the Unreleased heading, rewrites the Unreleased link to compare from the
new version, and adds the new release's compare link after it. -/
theorem kc_c4_promotion (today : String) :
    release_version (some "1.0.0") "1.1.0" today
      ["## [Unreleased]\n", "\n", "- change\n",
       "[Unreleased]: https://x/compare/v1.0.0...HEAD\n"]
    = Except.ok
        ["## [Unreleased]\n", "\n", "## [1.1.0] - " ++ today ++ "\n", "\n", "- change\n",
         "[Unreleased]: https://x/compare/v1.1.0...HEAD\n",
         "[1.1.0]: https://x/compare/v1.0.0...v1.1.0\n"] := rfl

/-- Claim C6: each distinct version identifier appears at most once as a key
of the parsed changelog (first conjunct); a run of the aggregation loop only
ever appends new keys after the existing ones, so key insertion order matches
the document order of the first heading registering each version (second
conjunct); and a release heading whose extracted version is already a key
leaves `changes` completely unchanged: the existing release record becomes
`current_release` and its version and release date are not overwritten (third
conjunct). -/
theorem kc_c6_keys_unique_ordered_no_overwrite :
    (∀ (blocks : List Block) (su : Bool) (res : Changes),
        to_dict blocks su = Except.ok res → (res.map Prod.fst).Nodup)
    ∧ (∀ (su : Bool) (st : ToDictState) (blocks : List Block) (st' : ToDictState),
        runBlocks su st blocks = Except.ok st' →
          st.changes.map Prod.fst <+: st'.changes.map Prod.fst)
    ∧ (∀ (ch : Changes) (children : List SpanToken) (su : Bool) (ch' : Changes) (v : String),
        add_release ch children su = Except.ok (ch', CurRel.stored v) →
          v ∈ ch.map Prod.fst → ch' = ch) := by
  refine ⟨?_, ?_, ?_⟩
  · intro blocks su res h
    unfold to_dict at h
    split at h
    · exact Except.noConfusion h
    · next st heq =>
      cases h
      exact (runBlocks_keys heq).2 (by simp [to_dict_init])
  · intro su st blocks st' h
    exact (runBlocks_keys h).1
  · intro ch children su ch' v h hmem
    rcases add_release_changes h with h1 | ⟨v', r, hnone, hcur, happ⟩
    · exact h1
    · cases hcur
      exact absurd hmem (lookupA_eq_none hnone)

/-- Concrete instantiation of the three conjuncts of the C6 theorem, on a
one-release document and a re-encountered `1.0.0` heading. -/
theorem kc_c6_witness :
    (([("1.0.0",
        [("version", RVal.s "1.0.0"), ("release_date", RVal.s "2020-12-31")])] :
          Changes).map Prod.fst).Nodup
    ∧ (to_dict_init.changes.map Prod.fst <+:
        (⟨[("1.0.0",
            [("version", RVal.s "1.0.0"), ("release_date", RVal.s "2020-12-31")])],
          CurRel.stored "1.0.0", ⟨RVal.l [], CatPath.free⟩⟩ : ToDictState).changes.map Prod.fst)
    ∧ ([("1.0.0", [("version", RVal.s "1.0.0"), ("release_date", RVal.s "2020-12-31")])] :
          Changes)
        = [("1.0.0", [("version", RVal.s "1.0.0"), ("release_date", RVal.s "2020-12-31")])] :=
  ⟨kc_c6_keys_unique_ordered_no_overwrite.1
      [Block.heading 2 [SpanToken.rawText "[1.0.0]", SpanToken.rawText " - 2020-12-31"]]
      false
      [("1.0.0", [("version", RVal.s "1.0.0"), ("release_date", RVal.s "2020-12-31")])]
      rfl,
   kc_c6_keys_unique_ordered_no_overwrite.2.1
      false to_dict_init
      [Block.heading 2 [SpanToken.rawText "[1.0.0]", SpanToken.rawText " - 2020-12-31"]]
      ⟨[("1.0.0", [("version", RVal.s "1.0.0"), ("release_date", RVal.s "2020-12-31")])],
        CurRel.stored "1.0.0", ⟨RVal.l [], CatPath.free⟩⟩
      rfl,
   kc_c6_keys_unique_ordered_no_overwrite.2.2
      [("1.0.0", [("version", RVal.s "1.0.0"), ("release_date", RVal.s "2020-12-31")])]
      [SpanToken.rawText "[1.0.0]", SpanToken.rawText " - 2020-12-31"]
      false
      [("1.0.0", [("version", RVal.s "1.0.0"), ("release_date", RVal.s "2020-12-31")])]
      "1.0.0"
      rfl
      (by decide)⟩

/-- Claim C7 (counterexample): a link-form version token whose label text is
`[1.2.3]` yields the version `[1.2.3]`, while the plain bracketed form of the
same text, `[[1.2.3]]`, yields `1.2.3` because `unlink` strips every bracket;
the two extracted version strings differ. -/
theorem kc_c7_counterexample :
    add_release []
        [SpanToken.link [SpanToken.rawText "[1.2.3]"], SpanToken.rawText " - 2020-12-31"] true
      = Except.ok
          ([("[1.2.3]",
             [("version", RVal.s "[1.2.3]"), ("release_date", RVal.s "2020-12-31")])],
           CurRel.stored "[1.2.3]")
    ∧ add_release []
        [SpanToken.rawText "[[1.2.3]]", SpanToken.rawText " - 2020-12-31"] true
      = Except.ok
          ([("1.2.3",
             [("version", RVal.s "1.2.3"), ("release_date", RVal.s "2020-12-31")])],
           CurRel.stored "1.2.3")
    ∧ ("[1.2.3]" : String) ≠ "1.2.3" :=
  ⟨rfl, rfl, by decide⟩

/-- Claim C8 (counterexample): on the token `[[1.2.3]]` the code strips every
leading `[` and trailing `]`, yielding `1.2.3`, whereas stripping exactly one
leading `[` and one trailing `]` as claimed would yield `[1.2.3]`. -/
theorem kc_c8_counterexample :
    unlink "[[1.2.3]]" = "1.2.3" ∧ unlink_spec "[[1.2.3]]" = "[1.2.3]"
      ∧ unlink "[[1.2.3]]" ≠ unlink_spec "[[1.2.3]]" :=
  ⟨rfl, rfl, by decide⟩

/-- Claim C8 (amended): the version extraction strips every leading `[`
character and every trailing `]` character from the token. -/
theorem kc_c8_strip_all (value : String) :
    (unlink value).data
      = ((value.data.dropWhile (fun c => c == '[')).reverse.dropWhile
          (fun c => c == ']')).reverse := by
  have h1 : (fun c => "[".data.contains c) = (fun c => c == '[') := by
    funext c
    rw [show "[".data = ['['] from rfl]
    by_cases h : c = '[' <;> simp [h]
  have h2 : (fun c => "]".data.contains c) = (fun c => c == ']') := by
    funext c
    rw [show "]".data = [']'] from rfl]
    by_cases h : c = ']' <;> simp [h]
  unfold unlink pyRstrip pyLstrip
  rw [h1, h2]

/-- Wrapping a token in one pair of brackets and unlinking returns the token,
provided the token neither starts with `[` nor ends with `]`. -/
theorem unlink_wrap {T : String} (h1 : T.data.head? ≠ some '[')
    (h2 : T.data.getLast? ≠ some ']') : unlink ("[" ++ T ++ "]") = T := by
  have hopen : ∀ c : Char, ("[".data.contains c) = (c == '[') := by
    intro c
    rw [show "[".data = ['['] from rfl]
    by_cases h : c = '[' <;> simp [h]
  have hclose : ∀ c : Char, ("]".data.contains c) = (c == ']') := by
    intro c
    rw [show "]".data = [']'] from rfl]
    by_cases h : c = ']' <;> simp [h]
  have hdata : ("[" ++ T ++ "]").data = '[' :: (T.data ++ [']']) := by
    rw [String.data_append, String.data_append,
      show "[".data = ['['] from rfl, show "]".data = [']'] from rfl]
    simp
  have hdrop1 :
      List.dropWhile (fun c => "[".data.contains c) (T.data ++ [']']) = T.data ++ [']'] := by
    cases hT : T.data with
    | nil =>
      simp only [List.nil_append]
      rw [List.dropWhile_cons]
      simp [hopen]
    | cons c cs =>
      have hc : c ≠ '[' := by
        intro e
        exact h1 (by rw [hT, e]; rfl)
      simp only [List.cons_append]
      rw [List.dropWhile_cons]
      simp [hopen, hc]
  have hdrop2 :
      List.dropWhile (fun c => "]".data.contains c) T.data.reverse = T.data.reverse := by
    cases hR : T.data.reverse with
    | nil => rfl
    | cons c cs =>
      have hlast : T.data.getLast? = some c := by
        rw [← List.head?_reverse, hR]
        rfl
      have hc : c ≠ ']' := by
        intro e
        exact h2 (by rw [hlast, e])
      rw [List.dropWhile_cons]
      simp [hclose, hc]
  have step1 : pyLstrip ("[" ++ T ++ "]") "[" = String.mk (T.data ++ [']']) := by
    unfold pyLstrip
    rw [hdata, List.dropWhile_cons]
    rw [if_pos (by simp [hopen])]
    rw [hdrop1]
  have step2 : pyRstrip (String.mk (T.data ++ [']'])) "]" = T := by
    unfold pyRstrip
    show String.mk (((T.data ++ [']']).reverse.dropWhile _).reverse) = T
    rw [show (T.data ++ [']']).reverse = ']' :: T.data.reverse by simp]
    rw [List.dropWhile_cons]
    rw [if_pos (by simp [hclose])]
    rw [hdrop2]
    rw [List.reverse_reverse]
  unfold unlink
  rw [step1, step2]

/-- Claim C7 (amended): a link-form version token and the plain bracketed form
of the same label text produce identical `add_release` results, provided the
label text neither starts with `[` nor ends with `]`; in particular the
extracted version strings coincide.  (The counterexample shows the unrestricted
claim fails when the label itself carries brackets.) -/
theorem kc_c7_link_plain_agree (T d : String) (ch : Changes) (su : Bool)
    (h1 : T.data.head? ≠ some '[') (h2 : T.data.getLast? ≠ some ']') :
    add_release ch [SpanToken.link [SpanToken.rawText T], SpanToken.rawText d] su
      = add_release ch [SpanToken.rawText ("[" ++ T ++ "]"), SpanToken.rawText d] su := by
  unfold add_release
  simp [versionOfToken, spanContent, unlink_wrap h1 h2]

/-- Concrete instantiation of the C7 theorem at label text `1.2.3`. -/
theorem kc_c7_witness :
    ("1.2.3" : String).data.head? ≠ some '['
    ∧ ("1.2.3" : String).data.getLast? ≠ some ']'
    ∧ add_release []
        [SpanToken.link [SpanToken.rawText "1.2.3"], SpanToken.rawText " - 2020-12-31"] true
      = add_release []
        [SpanToken.rawText ("[" ++ "1.2.3" ++ "]"), SpanToken.rawText " - 2020-12-31"] true :=
  ⟨by decide, by decide,
   kc_c7_link_plain_agree "1.2.3" " - 2020-12-31" [] true (by decide) (by decide)⟩

/-- A line that starts with `[Unreleased]: ` does not start with
`## [Unreleased]`. -/
theorem link_not_heading {l : String}
    (h : ("[Unreleased]: ".data.isPrefixOf l.data) = true) :
    ("## [Unreleased]".data.isPrefixOf l.data) = false := by
  rw [List.isPrefixOf_iff_prefix] at h
  by_contra hh
  rw [Bool.not_eq_false, List.isPrefixOf_iff_prefix] at hh
  obtain ⟨t1, ht1⟩ := h
  obtain ⟨t2, ht2⟩ := hh
  rw [← ht1] at ht2
  rw [show "## [Unreleased]".data = '#' :: "# [Unreleased]".data from rfl,
      show "[Unreleased]: ".data = '[' :: "Unreleased]: ".data from rfl] at ht2
  simp only [List.cons_append] at ht2
  injection ht2 with hhead htail
  exact absurd hhead (by decide)

/-- Claim C5: for an `[Unreleased]: ` link line whose URL does not match the
compare-ellipsis shape, the promotion emits the original line unchanged
followed by a copy of it with every `Unreleased` replaced by the new version,
performing no rewriting of the URL itself: stated for the loop body
`process_line` and for `release_version` on a document made of that line. -/
theorem kc_c5_noncompare_link (current_version : Option String)
    (new_version today line : String)
    (h1 : ("[Unreleased]: ".data.isPrefixOf line.data) = true)
    (h2 : unreleased_compare_match line = none) :
    process_line current_version new_version today line
      = Except.ok [line, pyReplace line "Unreleased" new_version]
    ∧ release_version current_version new_version today [line]
      = Except.ok [line, pyReplace line "Unreleased" new_version] := by
  have hp : process_line current_version new_version today line
      = Except.ok [line, pyReplace line "Unreleased" new_version] := by
    simp [process_line, link_not_heading h1, h1, h2]
  refine ⟨hp, ?_⟩
  unfold release_version
  rw [hp]
  rfl

/-- Concrete instantiation of the C5 theorem on the spec's example line. -/
theorem kc_c5_witness :
    ("[Unreleased]: ".data.isPrefixOf "[Unreleased]: https://x/tree/unreleased\n".data) = true
    ∧ unreleased_compare_match "[Unreleased]: https://x/tree/unreleased\n" = none
    ∧ process_line (some "1.0.0") "1.1.0" "2026-10-12"
        "[Unreleased]: https://x/tree/unreleased\n"
      = Except.ok ["[Unreleased]: https://x/tree/unreleased\n",
          pyReplace "[Unreleased]: https://x/tree/unreleased\n" "Unreleased" "1.1.0"]
    ∧ pyReplace "[Unreleased]: https://x/tree/unreleased\n" "Unreleased" "1.1.0"
      = "[1.1.0]: https://x/tree/unreleased\n" :=
  ⟨by decide, by decide,
   (kc_c5_noncompare_link (some "1.0.0") "1.1.0" "2026-10-12"
      "[Unreleased]: https://x/tree/unreleased\n" (by decide) (by decide)).1,
   by decide⟩

/-- Claim C9: a document in which no line starts with `## [Unreleased]` and no
line starts with `[Unreleased]: ` is rewritten identically, with no
exception: every line is emitted unchanged. -/
theorem kc_c9_no_unreleased_noop (current_version : Option String)
    (new_version today : String) (lines : List String)
    (h : ∀ l ∈ lines, ("## [Unreleased]".data.isPrefixOf l.data) = false
        ∧ ("[Unreleased]: ".data.isPrefixOf l.data) = false) :
    release_version current_version new_version today lines = Except.ok lines := by
  induction lines with
  | nil => rfl
  | cons line rest ih =>
    obtain ⟨h1, h2⟩ := h line (by simp)
    have hrest := ih (fun l hl => h l (by simp [hl]))
    have hp : process_line current_version new_version today line = Except.ok [line] := by
      simp [process_line, h1, h2]
    unfold release_version
    rw [hp, hrest]
    rfl

/-- Concrete instantiation of the C9 theorem on a three-line document. -/
theorem kc_c9_witness :
    (∀ l ∈ ["# Changelog\n", "## [1.0.0] - 2020-12-31\n", "[1.0.0]: https://x/tag/v1.0.0\n"],
        ("## [Unreleased]".data.isPrefixOf l.data) = false
        ∧ ("[Unreleased]: ".data.isPrefixOf l.data) = false)
    ∧ release_version (some "1.0.0") "1.1.0" "2026-10-12"
        ["# Changelog\n", "## [1.0.0] - 2020-12-31\n", "[1.0.0]: https://x/tag/v1.0.0\n"]
      = Except.ok
          ["# Changelog\n", "## [1.0.0] - 2020-12-31\n", "[1.0.0]: https://x/tag/v1.0.0\n"] :=
  ⟨by decide,
   kc_c9_no_unreleased_noop (some "1.0.0") "1.1.0" "2026-10-12"
     ["# Changelog\n", "## [1.0.0] - 2020-12-31\n", "[1.0.0]: https://x/tag/v1.0.0\n"]
     (by decide)⟩

/-- Claim C10: when the document contains an `[Unreleased]: ` link line whose
URL matches the compare-ellipsis shape, calling `release_version` with an
absent `current_version` raises an exception (the `TypeError` from
`str.replace` receiving `None`) instead of producing a rewrite. -/
theorem kc_c10_none_current_raises (new_version today : String)
    (lines : List String) (line : String)
    (hmem : line ∈ lines)
    (h1 : ("[Unreleased]: ".data.isPrefixOf line.data) = true)
    (h2 : (unreleased_compare_match line).isSome = true) :
    ∃ e, release_version none new_version today lines = Except.error e := by
  induction lines with
  | nil => cases hmem
  | cons l rest ih =>
    rcases List.mem_cons.mp hmem with hl | hl
    · obtain ⟨pr, hpr⟩ := Option.isSome_iff_exists.mp h2
      have hp : process_line none new_version today l = Except.error "TypeError" := by
        obtain ⟨ct, ut⟩ := pr
        rw [← hl]
        simp [process_line, link_not_heading h1, h1, hpr]
      refine ⟨"TypeError", ?_⟩
      unfold release_version
      rw [hp]
    · obtain ⟨e, he⟩ := ih hl
      cases hp : process_line none new_version today l with
      | error e2 =>
        refine ⟨e2, ?_⟩
        unfold release_version
        rw [hp]
      | ok out =>
        refine ⟨e, ?_⟩
        unfold release_version
        rw [hp, he]

/-- Concrete instantiation of the C10 theorem on a two-line document whose
Unreleased link has the compare shape. -/
theorem kc_c10_witness :
    ("[Unreleased]: https://x/compare/v1.0.0...HEAD\n" ∈
        ["## [Unreleased]\n", "[Unreleased]: https://x/compare/v1.0.0...HEAD\n"])
    ∧ ("[Unreleased]: ".data.isPrefixOf
        "[Unreleased]: https://x/compare/v1.0.0...HEAD\n".data) = true
    ∧ (unreleased_compare_match "[Unreleased]: https://x/compare/v1.0.0...HEAD\n").isSome = true
    ∧ ∃ e, release_version none "1.1.0" "2026-10-12"
        ["## [Unreleased]\n", "[Unreleased]: https://x/compare/v1.0.0...HEAD\n"]
        = Except.error e :=
  ⟨by decide, by decide, by decide,
   kc_c10_none_current_raises "1.1.0" "2026-10-12"
     ["## [Unreleased]\n", "[Unreleased]: https://x/compare/v1.0.0...HEAD\n"]
     "[Unreleased]: https://x/compare/v1.0.0...HEAD\n"
     (by decide) (by decide) (by decide)⟩
